import Mathlib

/-!
Shallow embedding of the POX firewall learning-switch controller
(`poxController_firewall.py`): the firewall rule store (`AddRule`,
`DeleteRule`, `CheckRule`), the MAC learning table, the flood
hold-down gate, and the packet-in forwarding pipeline
(`_handle_PacketIn` with its nested `flood` and `drop` helpers).

Python dictionaries are modelled as functions to `Option`; dictionary
keys are heterogeneous tuples of a switch-id string together with
values that are either IP addresses (`PVal.ip`, standing for POX
`IPAddr` objects by their 32-bit value) or plain Python integers
(`PVal.int`, used for ports and for the literal sentinel `0`).
A 3-tuple key and a 4-tuple key are never equal, mirroring Python
tuple equality.
-/

/-- A value occurring in a firewall dictionary key position: an IP
address object or a plain integer (port number or the `0` sentinel). -/
inductive PVal where
  | ip (a : Nat)
  | int (n : Nat)
deriving DecidableEq

/-- A firewall dictionary key: Python tuples
`(dpidstr, x, y)` or `(dpidstr, x, y, z)`. -/
inductive FwKey where
  | triple (dpid : String) (a b : PVal)
  | quad (dpid : String) (a b c : PVal)
deriving DecidableEq

/-- The firewall dictionary `self.firewall`. -/
abbrev Firewall := FwKey → Option Bool

/-- `self.firewall = {}` in `__init__`. -/
def emptyFirewall : Firewall := fun _ => none

/-- `d[k] = v` on a Python dictionary. -/
def fwInsert (fw : Firewall) (k : FwKey) (v : Bool) : Firewall :=
  fun q => if q = k then some v else fw q

/-- `del d[k]` on a Python dictionary (no-op when the key is absent,
matching the `try/except KeyError` wrappers around every `del`). -/
def fwDelete (fw : Firewall) (k : FwKey) : Firewall :=
  fun q => if q = k then none else fw q

/-- `LearningSwitch.AddRule` (lines 93-102): when `dstport == 0`
store under `(dpidstr, srcipstr, dstipstr)`; else when `srcipstr == 0`
store under `(dpidstr, dstipstr, dstport)`; else store under the full
4-tuple.  The stored value is the literal `True` in all three branches
(the `value` parameter of the Python function is never used). -/
def AddRule (fw : Firewall) (dpidstr : String) (srcipstr dstipstr : PVal)
    (dstport : Nat) : Firewall :=
  if dstport = 0 then
    fwInsert fw (.triple dpidstr srcipstr dstipstr) true
  else if srcipstr = PVal.int 0 then
    fwInsert fw (.triple dpidstr dstipstr (PVal.int dstport)) true
  else
    fwInsert fw (.quad dpidstr srcipstr dstipstr (PVal.int dstport)) true

/-- `LearningSwitch.DeleteRule` (lines 105-117): removes the key built
by the same branch selection as `AddRule`; `KeyError` (absent key) is
caught and only logged. -/
def DeleteRule (fw : Firewall) (dpidstr : String) (srcipstr dstipstr : PVal)
    (dstport : Nat) : Firewall :=
  if dstport = 0 then
    fwDelete fw (.triple dpidstr srcipstr dstipstr)
  else if srcipstr = PVal.int 0 then
    fwDelete fw (.triple dpidstr dstipstr (PVal.int dstport))
  else
    fwDelete fw (.quad dpidstr srcipstr dstipstr (PVal.int dstport))

/-- The key that `AddRule` / `DeleteRule` select for a given argument
tuple (shared branch structure of lines 94-101 and 107-114). -/
def ruleKey (dpidstr : String) (srcipstr dstipstr : PVal) (dstport : Nat) :
    FwKey :=
  if dstport = 0 then .triple dpidstr srcipstr dstipstr
  else if srcipstr = PVal.int 0 then .triple dpidstr dstipstr (PVal.int dstport)
  else .quad dpidstr srcipstr dstipstr (PVal.int dstport)

/-- `LearningSwitch.CheckRule` (lines 120-136): first look up the
host-pair key `(dpidstr, srcipstr, dstipstr)` and return its entry if
present; otherwise look up the destination-service key
`(dpidstr, dstipstr, dstport)` and return its entry if present;
otherwise return `False`.  Both `try/except KeyError` blocks are
modelled by the `Option` match. -/
def CheckRule (fw : Firewall) (dpidstr : String) (srcipstr dstipstr : PVal)
    (dstport : Nat) : Bool :=
  match fw (.triple dpidstr srcipstr dstipstr) with
  | some entry => entry
  | none =>
    match fw (.triple dpidstr dstipstr (PVal.int dstport)) with
    | some entry => entry
    | none => false

/-- Firewall tables reachable by the in-process rule-management API
from the empty table (this includes the two demonstration rules
preloaded in `__init__`, which go through `AddRule`). -/
inductive Reachable : Firewall → Prop where
  | empty : Reachable emptyFirewall
  | add (fw : Firewall) (d : String) (s t : PVal) (p : Nat) :
      Reachable fw → Reachable (AddRule fw d s t p)
  | del (fw : Firewall) (d : String) (s t : PVal) (p : Nat) :
      Reachable fw → Reachable (DeleteRule fw d s t p)

/-- Every entry stored in the table is `true` (`AddRule` stores the
literal `True` in every branch). -/
def FwAllTrue (fw : Firewall) : Prop := ∀ k v, fw k = some v → v = true

theorem addRule_eq_insert (fw : Firewall) (d : String) (s t : PVal) (p : Nat) :
    AddRule fw d s t p = fwInsert fw (ruleKey d s t p) true := by
  unfold AddRule ruleKey
  split
  · rfl
  · split <;> rfl

theorem deleteRule_eq_delete (fw : Firewall) (d : String) (s t : PVal)
    (p : Nat) : DeleteRule fw d s t p = fwDelete fw (ruleKey d s t p) := by
  unfold DeleteRule ruleKey
  split
  · rfl
  · split <;> rfl

theorem fwAllTrue_empty : FwAllTrue emptyFirewall := by
  intro k v h
  simp [emptyFirewall] at h

theorem fwAllTrue_insert (fw : Firewall) (k : FwKey) (h : FwAllTrue fw) :
    FwAllTrue (fwInsert fw k true) := by
  intro q v hq
  simp only [fwInsert] at hq
  split at hq
  · exact (Option.some.injEq _ _ ▸ hq).symm
  · exact h q v hq

theorem fwAllTrue_delete (fw : Firewall) (k : FwKey) (h : FwAllTrue fw) :
    FwAllTrue (fwDelete fw k) := by
  intro q v hq
  simp only [fwDelete] at hq
  split at hq
  · exact absurd hq (by simp)
  · exact h q v hq

theorem reachable_allTrue (fw : Firewall) (h : Reachable fw) : FwAllTrue fw := by
  induction h with
  | empty => exact fwAllTrue_empty
  | add fw d s t p _ ih =>
    rw [addRule_eq_insert]
    exact fwAllTrue_insert fw (ruleKey d s t p) ih
  | del fw d s t p _ ih =>
    rw [deleteRule_eq_delete]
    exact fwAllTrue_delete fw (ruleKey d s t p) ih

/-!
The packet-in pipeline (`_handle_PacketIn`, lines 138-237), with its
nested helpers `flood` (lines 145-163) and `drop` (lines 165-178).
Time values (`time.time()`, `connection.connect_time`) and the module
global `_flood_delay` are integers passed in explicitly; the DPID
string of the session's connection is carried on the state.
-/

/-- The special flood port `of.OFPP_FLOOD`. -/
def OFPP_FLOOD : Nat := 65531

/-- An OpenFlow output action `of.ofp_action_output(port = p)`. -/
inductive OfAction where
  | output (port : Nat)
deriving DecidableEq

/-- A match built by the external `of.ofp_match.from_packet` helper:
the core hands it the packet and, optionally, the ingress port. -/
structure MatchSpec where
  pktSrc : Nat
  pktDst : Nat
  inPort : Option Nat
deriving DecidableEq

/-- The network-layer payload of a parsed packet (`packet.next`); for
IPv4 the addresses and, when a TCP segment is found by
`packet.find('tcp')`, its destination port. -/
inductive NetLayer where
  | ipv4 (srcip dstip : Nat) (tcpDstport : Option Nat)
  | arp
  | ipv6
  | other
deriving DecidableEq

/-- The fields of a parsed packet the handler reads. -/
structure Packet where
  src : Nat
  dst : Nat
  dstIsMulticast : Bool
  dstIsBridgeFiltered : Bool
  isLLDP : Bool
  next : NetLayer
deriving DecidableEq

/-- An outbound OpenFlow command sent on `self.connection`:
`ofp_packet_out` (buffer id, whether `msg.data = event.ofp` was set,
`msg.in_port`, actions) or `ofp_flow_mod` (match, idle timeout, hard
timeout, buffer id, whether data was attached, actions). -/
inductive Msg where
  | packetOut (bufferId : Option Nat) (withData : Bool)
      (inPort : Option Nat) (acts : List OfAction)
  | flowMod (m : MatchSpec) (idle hard : Nat) (bufferId : Option Nat)
      (withData : Bool) (acts : List OfAction)
deriving DecidableEq

/-- The action list of an outbound command. -/
def Msg.actions : Msg → List OfAction
  | .packetOut _ _ _ acts => acts
  | .flowMod _ _ _ _ _ acts => acts

/-- The `duration` argument of `drop`: `None`, a single number, or an
explicit `(idle, hard)` pair. -/
inductive Duration where
  | noDur
  | single (n : Nat)
  | pair (idle hard : Nat)
deriving DecidableEq

/-- Per-switch session state of a `LearningSwitch` instance:
the connection's DPID string, the `transparent` flag, `self.macToPort`,
`self.firewall` and `self.hold_down_expired`. -/
structure SwitchState where
  dpidstr : String
  transparent : Bool
  macToPort : Nat → Option Nat
  firewall : Firewall
  hold_down_expired : Bool

/-- A packet-in event: ingress port `event.port`, the buffer id
carried by `event.ofp`, and the parsed packet `event.parsed`. -/
structure InEvent where
  port : Nat
  bufferId : Option Nat
  packet : Packet

/-- `match_from_packet pkt p?` models `of.ofp_match.from_packet`
applied to the handler's packet, with or without the ingress port. -/
def match_from_packet (pkt : Packet) (p : Option Nat) : MatchSpec :=
  ⟨pkt.src, pkt.dst, p⟩

/-- The nested `flood` helper (lines 145-163).  A `packet_out` is
always sent; the flood action is appended, and the hold-down flag
raised, only when `time.time() - connect_time >= _flood_delay`.
Returns the new `hold_down_expired` flag and the message sent. -/
def floodStep (flood_delay now connectTime : Int) (hde : Bool)
    (inport : Nat) : Bool × Msg :=
  if now - connectTime ≥ flood_delay then
    (true, .packetOut none true (some inport) [.output OFPP_FLOOD])
  else
    (hde, .packetOut none true (some inport) [])

/-- The nested `drop` helper (lines 165-178).  With a duration it
installs a `flow_mod` with no actions (a single number `n` becomes the
pair `(n, n)`); without one it discards the buffered packet via a
bare `packet_out`, or does nothing when the packet was not buffered.
Returns the list of messages sent. -/
def dropStep (pkt : Packet) (bufferId : Option Nat) (inport : Nat) :
    Duration → List Msg
  | .noDur =>
    match bufferId with
    | some b => [.packetOut (some b) false (some inport) []]
    | none => []
  | .single n => [.flowMod (match_from_packet pkt none) n n bufferId false []]
  | .pair i h => [.flowMod (match_from_packet pkt none) i h bufferId false []]

/-- Steps 2-6a of `_handle_PacketIn` (lines 212-237): the link-local
gate, the multicast flood, the unknown-destination flood, the loop
guard, and the forwarding flow install.  `s1` is the session state
after the learning step. -/
def stage2 (flood_delay now connectTime : Int) (s1 : SwitchState)
    (e : InEvent) : SwitchState × List Msg :=
  let packet := e.packet
  if !s1.transparent && (packet.isLLDP || packet.dstIsBridgeFiltered) then
    (s1, dropStep packet e.bufferId e.port .noDur)
  else if packet.dstIsMulticast then
    let r := floodStep flood_delay now connectTime s1.hold_down_expired e.port
    ({ s1 with hold_down_expired := r.1 }, [r.2])
  else
    match s1.macToPort packet.dst with
    | none =>
      let r := floodStep flood_delay now connectTime s1.hold_down_expired e.port
      ({ s1 with hold_down_expired := r.1 }, [r.2])
    | some port =>
      if port = e.port then
        (s1, dropStep packet e.bufferId e.port (.single 10))
      else
        (s1, [.flowMod (match_from_packet packet (some e.port)) 10 30
          none true [.output port]])

/-- `_handle_PacketIn` (lines 138-237): learn the source's port
unconditionally, then the firewall gate — IPv4 packets are checked
with `CheckRule` (TCP destination port, or `0` when no TCP segment is
present) and dropped on a hit; ARP continues; IPv6 is dropped
unconditionally; anything else continues — then `stage2`. -/
def handlePacketIn (flood_delay now connectTime : Int) (s : SwitchState)
    (e : InEvent) : SwitchState × List Msg :=
  let packet := e.packet
  let s1 : SwitchState :=
    { s with macToPort := fun a => if a = packet.src then some e.port
                                   else s.macToPort a }
  match packet.next with
  | .ipv4 srcip dstip tcpOpt =>
    match tcpOpt with
    | some dstport =>
      if CheckRule s1.firewall s1.dpidstr (.ip srcip) (.ip dstip) dstport then
        (s1, dropStep packet e.bufferId e.port .noDur)
      else stage2 flood_delay now connectTime s1 e
    | none =>
      if CheckRule s1.firewall s1.dpidstr (.ip srcip) (.ip dstip) 0 then
        (s1, dropStep packet e.bufferId e.port .noDur)
      else stage2 flood_delay now connectTime s1 e
  | .arp => stage2 flood_delay now connectTime s1 e
  | .ipv6 => (s1, dropStep packet e.bufferId e.port .noDur)
  | .other => stage2 flood_delay now connectTime s1 e

example : CheckRule (AddRule emptyFirewall "s1" (.ip 1) (.ip 4) 0)
    "s1" (.ip 1) (.ip 4) 12345 = true := by decide

example : CheckRule (AddRule emptyFirewall "s1" (.int 0) (.ip 3) 80)
    "s1" (.ip 9) (.ip 3) 80 = true := by decide

example : CheckRule (AddRule emptyFirewall "s1" (.ip 1) (.ip 4) 80)
    "s1" (.ip 1) (.ip 4) 80 = false := by decide

/-!
Claim theorems.
-/

/-- C1: For every (reachable) firewall state and every call
`CheckRule(switchId, srcAddr, dstAddr, dstPort)`, the lookup proceeds
in a fixed order: first the HostPair key `(switchId, srcAddr,
dstAddr)` — if present, the result is block; otherwise the DestService
key `(switchId, dstAddr, dstPort)` — if present, the result is block;
otherwise the result is allow.  `CheckRule` never raises and returns
exactly one of block (`true`) or allow (`false`). -/
theorem checkRule_lookup_order (fw : Firewall) (hfw : Reachable fw)
    (d : String) (s t : PVal) (p : Nat) :
    ((fw (.triple d s t)).isSome = true → CheckRule fw d s t p = true) ∧
    (fw (.triple d s t) = none →
      (fw (.triple d t (.int p))).isSome = true →
      CheckRule fw d s t p = true) ∧
    (fw (.triple d s t) = none → fw (.triple d t (.int p)) = none →
      CheckRule fw d s t p = false) ∧
    (CheckRule fw d s t p = true ∨ CheckRule fw d s t p = false) := by
  have hT := reachable_allTrue fw hfw
  refine ⟨?_, ?_, ?_, ?_⟩
  · intro h
    obtain ⟨v, hv⟩ := Option.isSome_iff_exists.mp h
    simp only [CheckRule, hv]
    exact hT _ v hv
  · intro h1 h2
    obtain ⟨v, hv⟩ := Option.isSome_iff_exists.mp h2
    simp only [CheckRule, h1, hv]
    exact hT _ v hv
  · intro h1 h2
    simp only [CheckRule, h1, h2]
  · cases CheckRule fw d s t p
    · exact Or.inr rfl
    · exact Or.inl rfl

/-- Witness for C1: on the reachable table holding the preloaded
host-pair rule, the HostPair key is present and the result is block. -/
theorem checkRule_lookup_order_witness :
    CheckRule (AddRule emptyFirewall "s1" (.ip 1) (.ip 4) 0)
      "s1" (.ip 1) (.ip 4) 7 = true :=
  (checkRule_lookup_order (AddRule emptyFirewall "s1" (.ip 1) (.ip 4) 0)
    (Reachable.add _ _ _ _ _ Reachable.empty)
    "s1" (.ip 1) (.ip 4) 7).1 (by decide)

/-- C2: For every rule inserted via `AddRule` with `dstPort = 0` (the
HostPair variant, key `(switchId, srcAddr, dstAddr)`),
`CheckRule(switchId, srcAddr, dstAddr, anyPort)` returns block for
every value of `anyPort` — in particular for port `12345` after
`AddRule("s1", 10.0.0.1, 10.0.0.4, 0)`. -/
theorem hostPair_rule_blocks_any_port (fw : Firewall) (d : String)
    (s t : PVal) (p : Nat) :
    CheckRule (AddRule fw d s t 0) d s t p = true := by
  simp [AddRule, CheckRule, fwInsert]

/-- C3: For every rule inserted via `AddRule` with a wildcard (zero)
source and nonzero `dstPort` (the DestService variant, key
`(switchId, dstAddr, dstPort)`), `CheckRule(switchId, srcAddr,
dstAddr, dstPort)` returns block for every value of `srcAddr`, on any
reachable starting table. -/
theorem destService_rule_blocks_any_src (fw : Firewall)
    (hfw : Reachable fw) (d : String) (s t : PVal) (p : Nat)
    (hp : p ≠ 0) :
    CheckRule (AddRule fw d (.int 0) t p) d s t p = true := by
  have hT : FwAllTrue (AddRule fw d (.int 0) t p) :=
    reachable_allTrue _ (Reachable.add fw d (.int 0) t p hfw)
  have h2 : AddRule fw d (.int 0) t p (.triple d t (.int p)) = some true := by
    simp [AddRule, fwInsert, hp]
  cases hcase : AddRule fw d (.int 0) t p (.triple d s t) with
  | some v =>
    simp only [CheckRule, hcase]
    exact hT _ v hcase
  | none =>
    simp only [CheckRule, hcase, h2]

/-- Witness for C3: the spec scenario — after
`AddRule("s1", wildcard, 10.0.0.3, 80)`,
`CheckRule("s1", 10.0.0.9, 10.0.0.3, 80)` returns block. -/
theorem destService_rule_blocks_any_src_witness :
    CheckRule (AddRule emptyFirewall "s1" (.int 0) (.ip 167772163) 80)
      "s1" (.ip 167772169) (.ip 167772163) 80 = true :=
  destService_rule_blocks_any_src emptyFirewall Reachable.empty
    "s1" (.ip 167772169) (.ip 167772163) 80 (by decide)

/-- C4: A rule inserted via the FullTuple variant is never consulted
by lookup: starting from an empty table, `AddRule` with nonzero
source and nonzero port inserts the four-component key, and
`CheckRule` on the identical arguments still returns allow. -/
theorem fullTuple_rule_never_consulted (d : String) (s t : PVal)
    (p : Nat) (hs : s ≠ PVal.int 0) (hp : p ≠ 0) :
    AddRule emptyFirewall d s t p =
      fwInsert emptyFirewall (.quad d s t (.int p)) true ∧
    CheckRule (AddRule emptyFirewall d s t p) d s t p = false := by
  have hadd : AddRule emptyFirewall d s t p =
      fwInsert emptyFirewall (.quad d s t (.int p)) true := by
    simp [AddRule, hp, hs]
  refine ⟨hadd, ?_⟩
  rw [hadd]
  simp [CheckRule, fwInsert, emptyFirewall]

/-- Witness for C4: after `AddRule("s1", 10.0.0.1, 10.0.0.4, 80)`
(full tuple), `CheckRule("s1", 10.0.0.1, 10.0.0.4, 80)` is allow. -/
theorem fullTuple_rule_never_consulted_witness :
    CheckRule (AddRule emptyFirewall "s1" (.ip 167772161) (.ip 167772164) 80)
      "s1" (.ip 167772161) (.ip 167772164) 80 = false :=
  (fullTuple_rule_never_consulted "s1" (.ip 167772161) (.ip 167772164) 80
    (by decide) (by decide)).2

/-- C8: `AddRule` twice with the same arguments equals `AddRule` once
(overwrite, not duplicate); `AddRule`, `AddRule`, then one
`DeleteRule` leaves no rule present for that key; consequently (from
the table holding just that rule) `DeleteRule` followed by `CheckRule`
on the identical key returns allow. -/
theorem addRule_idempotent_delete (fw : Firewall) (d : String)
    (s t : PVal) (p : Nat) :
    AddRule (AddRule fw d s t p) d s t p = AddRule fw d s t p ∧
    DeleteRule (AddRule (AddRule fw d s t p) d s t p) d s t p
      (ruleKey d s t p) = none ∧
    CheckRule (DeleteRule (AddRule (AddRule emptyFirewall d s t p)
      d s t p) d s t p) d s t p = false := by
  refine ⟨?_, ?_, ?_⟩
  · rw [addRule_eq_insert (AddRule fw d s t p), addRule_eq_insert fw]
    funext q
    by_cases h : q = ruleKey d s t p <;> simp [fwInsert, h]
  · rw [deleteRule_eq_delete]
    simp [fwDelete]
  · rw [deleteRule_eq_delete, addRule_eq_insert, addRule_eq_insert]
    have htab : ∀ q, fwDelete (fwInsert (fwInsert emptyFirewall
        (ruleKey d s t p) true) (ruleKey d s t p) true)
        (ruleKey d s t p) q = none := by
      intro q
      by_cases h : q = ruleKey d s t p <;>
        simp [fwDelete, fwInsert, emptyFirewall, h]
    simp only [CheckRule, htab]

/-- C10: In `AddRule`, the `dstport == 0` test takes precedence over
the wildcard-source test: a call with source the sentinel `0` and
`dstPort = 0` inserts the HostPair key `(switchId, 0, dstAddr)`, such
a rule is matched by `CheckRule` exactly when its `srcAddr` argument
is literally the sentinel `0`, and never by a real source IP address
(as the packet pipeline supplies). -/
theorem addRule_zero_zero_hostpair (d : String) (a : Nat) (s : PVal)
    (p : Nat) :
    AddRule emptyFirewall d (.int 0) (.ip a) 0 =
      fwInsert emptyFirewall (.triple d (.int 0) (.ip a)) true ∧
    (CheckRule (AddRule emptyFirewall d (.int 0) (.ip a) 0)
       d s (.ip a) p = true ↔ s = PVal.int 0) ∧
    (∀ n : Nat, CheckRule (AddRule emptyFirewall d (.int 0) (.ip a) 0)
       d (.ip n) (.ip a) p = false) := by
  have hadd : AddRule emptyFirewall d (.int 0) (.ip a) 0 =
      fwInsert emptyFirewall (.triple d (.int 0) (.ip a)) true := by
    simp [AddRule]
  refine ⟨hadd, ?_, ?_⟩
  · rw [hadd]
    by_cases h : s = PVal.int 0
    · subst h; simp [CheckRule, fwInsert]
    · simp [CheckRule, fwInsert, emptyFirewall, h]
  · intro n
    rw [hadd]
    simp [CheckRule, fwInsert, emptyFirewall]

/-- Witness for C10: the sentinel-source lookup matches the rule. -/
theorem addRule_zero_zero_hostpair_witness :
    CheckRule (AddRule emptyFirewall "s1" (.int 0) (.ip 4) 0)
      "s1" (.int 0) (.ip 4) 9 = true :=
  (addRule_zero_zero_hostpair "s1" 4 (PVal.int 0) 9).2.1.mpr rfl

/-- C5: `flood` emits a flood command only if
`now - connectionEstablishedAt >= holdDownSeconds`; if the delay has
not elapsed the flood action is suppressed and the call leaves the
hold-down state unchanged; once the delay has elapsed the flag is set
to `true` and the flood action is emitted (regardless of the flag),
and a `true` flag is never cleared by `flood`. -/
theorem flood_hold_down_behavior (fd now ct : Int) (hde : Bool)
    (ip : Nat) :
    ((floodStep fd now ct hde ip).2.actions =
        [OfAction.output OFPP_FLOOD] → now - ct ≥ fd) ∧
    (¬ now - ct ≥ fd → (floodStep fd now ct hde ip).2.actions = [] ∧
      (floodStep fd now ct hde ip).1 = hde) ∧
    (now - ct ≥ fd → (floodStep fd now ct hde ip).1 = true ∧
      (floodStep fd now ct hde ip).2.actions =
        [OfAction.output OFPP_FLOOD]) ∧
    (hde = true → (floodStep fd now ct hde ip).1 = true) := by
  by_cases h : now - ct ≥ fd
  · simp [floodStep, h, Msg.actions]
  · simp [floodStep, h, Msg.actions]

/-- Witness for C5: with the delay elapsed the flag flips and with it
not elapsed no flood action is emitted. -/
theorem flood_hold_down_behavior_witness :
    (floodStep 3 10 0 false 1).1 = true ∧
    (floodStep 5 1 0 false 1).2.actions = [] :=
  ⟨((flood_hold_down_behavior 3 10 0 false 1).2.2.1 (by decide)).1,
   ((flood_hold_down_behavior 5 1 0 false 1).2.1 (by decide)).1⟩

/-- C6: For every packet-in event, after the handler completes the
learning table maps the packet's source address to its ingress port,
on every execution path (firewall block, IPv6 drop, link-local drop,
loop-guard drop, floods and forwarding alike). -/
theorem learn_unconditional (fd now ct : Int) (s : SwitchState)
    (e : InEvent) :
    (handlePacketIn fd now ct s e).1.macToPort e.packet.src =
      some e.port := by
  have hstage : ∀ s1 : SwitchState,
      (stage2 fd now ct s1 e).1.macToPort = s1.macToPort := by
    intro s1
    unfold stage2
    dsimp only
    split
    · rfl
    · split
      · rfl
      · split
        · rfl
        · split
          · rfl
          · rfl
  unfold handlePacketIn
  dsimp only
  split
  · split
    · split
      · simp
      · rw [hstage]; simp
    · split
      · simp
      · rw [hstage]; simp
  · rw [hstage]; simp
  · simp
  · rw [hstage]; simp

/-- C7: When the pipeline reaches the loop-guard stage (link-local
gate passed, destination not multicast) and the learned output port
for the destination equals the ingress port, the engine sends exactly
one message: a flow-mod matching this packet (no ingress port in the
match) with idle timeout 10 and hard timeout 10 and no output action,
consuming the packet's buffer; the session state is unchanged and no
forwarding flow is installed. -/
theorem loop_guard_discard_flow (fd now ct : Int) (s1 : SwitchState)
    (e : InEvent)
    (hLL : (!s1.transparent &&
      (e.packet.isLLDP || e.packet.dstIsBridgeFiltered)) = false)
    (hM : e.packet.dstIsMulticast = false)
    (hP : s1.macToPort e.packet.dst = some e.port) :
    stage2 fd now ct s1 e =
      (s1, [Msg.flowMod (match_from_packet e.packet none) 10 10
        e.bufferId false []]) := by
  unfold stage2
  simp [hLL, hM, hP, dropStep]

/-- Witness for C7: a concrete ARP-carrying packet whose learned port
equals the ingress port produces exactly the 10/10 discard flow. -/
theorem loop_guard_discard_flow_witness :
    stage2 0 0 0
      ⟨"s1", false, (fun a => if a = 2 then some 1 else none),
        emptyFirewall, true⟩
      ⟨1, some 7, ⟨5, 2, false, false, false, .arp⟩⟩ =
    (⟨"s1", false, (fun a => if a = 2 then some 1 else none),
        emptyFirewall, true⟩,
     [Msg.flowMod (match_from_packet ⟨5, 2, false, false, false, .arp⟩
        none) 10 10 (some 7) false []]) :=
  loop_guard_discard_flow 0 0 0 _ _ (by decide) (by decide) (by decide)

/-- C9: For every packet-in event the handler sends zero or one
outbound command: no execution path of the pipeline emits two. -/
theorem handler_emits_at_most_one (fd now ct : Int) (s : SwitchState)
    (e : InEvent) :
    (handlePacketIn fd now ct s e).2.length ≤ 1 := by
  have hdrop : ∀ (pkt : Packet) (b : Option Nat) (ip : Nat)
      (dur : Duration), (dropStep pkt b ip dur).length ≤ 1 := by
    intro pkt b ip dur
    cases dur with
    | noDur => cases b <;> simp [dropStep]
    | single n => simp [dropStep]
    | pair i h => simp [dropStep]
  have hstage : ∀ s1 : SwitchState,
      ((stage2 fd now ct s1 e).2).length ≤ 1 := by
    intro s1
    unfold stage2
    dsimp only
    split
    · exact hdrop e.packet e.bufferId e.port Duration.noDur
    · split
      · simp
      · split
        · simp
        · split
          · exact hdrop e.packet e.bufferId e.port (Duration.single 10)
          · simp
  unfold handlePacketIn
  dsimp only
  split
  · split
    · split
      · exact hdrop e.packet e.bufferId e.port Duration.noDur
      · exact hstage _
    · split
      · exact hdrop e.packet e.bufferId e.port Duration.noDur
      · exact hstage _
  · exact hstage _
  · exact hdrop e.packet e.bufferId e.port Duration.noDur
  · exact hstage _
